import Mathlib

/-
  Verification of the Cumulus record-reconciliation and dual-store layer.

  Shallow embedding of:
  - the PDR conditional-update resolver (modelled from the spec, section 4.2:
    the implementation models/pdrs.js is not in the source tree, only its tests);
  - the schema translator for executions and the legacy file-shape upgrade
    (modelled from the spec, sections 4.1 and 8: endpoints/executions.js and
    lib/FileUtils.js are not in the source tree, only their tests);
  - packages/api/lib/granules.js (moveGranuleFilesAndUpdateDatastore,
    moveGranule, getGranuleProductVolume);
  - the providers endpoint (get and post handlers).
-/

namespace Cumulus

/- ===== PDR status and records (spec sections 3 and 4.2) ===== -/

inductive PdrStatus
  | running
  | completed
  | failed
deriving DecidableEq, Repr

def PdrStatus.isTerminal : PdrStatus → Bool
  | .running => false
  | .completed => true
  | .failed => true

structure PdrStats where
  completed : Nat
  failed : Nat
  processing : Nat
  total : Nat
deriving DecidableEq, Repr

structure PdrRecord where
  pdrName : String
  status : PdrStatus
  stats : PdrStats
  execution : String
  createdAt : Nat
deriving DecidableEq, Repr

structure PdrReport where
  pdrName : String
  status : PdrStatus
  stats : PdrStats
  execution : String
  workflowStartTime : Nat
deriving DecidableEq, Repr

/-- Modelled from the spec: the computed "progress" of a PDR status report is
the sum of the completed and failed counters (spec section 4.2, rule 4). -/
def pdrProgress (s : PdrStats) : Nat := s.completed + s.failed

/-- The record written when an incoming report fully replaces the current
state: the originating workflow start time becomes the record creation time. -/
def PdrReport.toRecord (r : PdrReport) : PdrRecord :=
  { pdrName := r.pdrName
    status := r.status
    stats := r.stats
    execution := r.execution
    createdAt := r.workflowStartTime }

/-- Modelled from the spec: the conditional update resolver used by
storePdrFromCumulusMessage (models/pdrs.js, not in the source tree).
Spec section 4.2 transition rules:
1. no current record: the incoming report is always applied;
2. current TERMINAL, different execution, incoming workflow start time not
   strictly newer than current creation time: rejected, current returned
   unchanged;
3. current TERMINAL, different and newer execution: incoming fully replaces
   current regardless of incoming status;
4. same execution: if current is TERMINAL the incoming is rejected; if current
   is RUNNING the incoming is applied only when its progress is at least the
   current progress, with the equal-progress tie broken by a status change. -/
def resolvePdrUpdate (current : Option PdrRecord) (incoming : PdrReport) : PdrRecord :=
  match current with
  | none => incoming.toRecord
  | some c =>
    if incoming.execution ≠ c.execution then
      if c.status.isTerminal then
        if incoming.workflowStartTime ≤ c.createdAt then c
        else incoming.toRecord
      else incoming.toRecord
    else
      if c.status.isTerminal then c
      else
        if pdrProgress c.stats < pdrProgress incoming.stats then incoming.toRecord
        else if pdrProgress incoming.stats < pdrProgress c.stats then c
        else if incoming.status ≠ c.status then incoming.toRecord
        else c

/-- C1: when the current PDR record is terminal and a report arrives from a
different execution whose workflow start time is not strictly newer than the
current record's creation time, the update is rejected and the persisted
record (in particular its status, stats and execution reference) is returned
unchanged. -/
theorem pdr_stale_report_from_superseded_execution_rejected
    (c : PdrRecord) (r : PdrReport)
    (hterm : c.status.isTerminal = true)
    (hexec : r.execution ≠ c.execution)
    (hstale : r.workflowStartTime ≤ c.createdAt) :
    resolvePdrUpdate (some c) r = c ∧
    (resolvePdrUpdate (some c) r).status = c.status ∧
    (resolvePdrUpdate (some c) r).stats = c.stats ∧
    (resolvePdrUpdate (some c) r).execution = c.execution := by
  have h : resolvePdrUpdate (some c) r = c := by
    simp [resolvePdrUpdate, hexec, hterm, hstale]
  exact ⟨h, by rw [h], by rw [h], by rw [h]⟩

/-- Concrete instance of the stale-report rejection: execution A completed at
time 100, execution B reports running with start time 50; the record stays as
written by A. -/
theorem pdr_stale_report_witness :
    resolvePdrUpdate
      (some { pdrName := "pdr1", status := .completed
              stats := { completed := 3, failed := 0, processing := 0, total := 3 }
              execution := "A", createdAt := 100 })
      { pdrName := "pdr1", status := .running
        stats := { completed := 0, failed := 0, processing := 2, total := 2 }
        execution := "B", workflowStartTime := 50 }
    = { pdrName := "pdr1", status := .completed
        stats := { completed := 3, failed := 0, processing := 0, total := 3 }
        execution := "A", createdAt := 100 } :=
  (pdr_stale_report_from_superseded_execution_rejected
    { pdrName := "pdr1", status := .completed
      stats := { completed := 3, failed := 0, processing := 0, total := 3 }
      execution := "A", createdAt := 100 }
    { pdrName := "pdr1", status := .running
      stats := { completed := 0, failed := 0, processing := 2, total := 2 }
      execution := "B", workflowStartTime := 50 }
    (by decide) (by decide) (by decide)).1

/-- C2: for a same-execution report while the current record is running,
a report with strictly less progress leaves the record unchanged, and a
report with strictly greater progress overwrites the record's stats and
status. -/
theorem pdr_same_execution_progress_monotonic
    (c : PdrRecord) (r : PdrReport)
    (hexec : r.execution = c.execution)
    (hrun : c.status = .running) :
    (pdrProgress r.stats < pdrProgress c.stats →
      resolvePdrUpdate (some c) r = c) ∧
    (pdrProgress c.stats < pdrProgress r.stats →
      (resolvePdrUpdate (some c) r).stats = r.stats ∧
      (resolvePdrUpdate (some c) r).status = r.status) := by
  constructor
  · intro hlt
    have hnot : ¬ pdrProgress c.stats < pdrProgress r.stats := by omega
    simp [resolvePdrUpdate, hexec, hrun, PdrStatus.isTerminal, hnot, hlt]
  · intro hgt
    simp [resolvePdrUpdate, hexec, hrun, PdrStatus.isTerminal, hgt, PdrReport.toRecord]

/-- Concrete instance of same-execution monotonicity: execution A running with
2 completed, then a same-execution report with 4 completed and 1 failed; the
report is applied and the stats are overwritten. -/
theorem pdr_same_execution_progress_witness :
    (resolvePdrUpdate
      (some { pdrName := "pdr2", status := .running
              stats := { completed := 2, failed := 0, processing := 3, total := 5 }
              execution := "A", createdAt := 100 })
      { pdrName := "pdr2", status := .running
        stats := { completed := 4, failed := 1, processing := 0, total := 5 }
        execution := "A", workflowStartTime := 100 }).stats
    = { completed := 4, failed := 1, processing := 0, total := 5 } :=
  ((pdr_same_execution_progress_monotonic
    { pdrName := "pdr2", status := .running
      stats := { completed := 2, failed := 0, processing := 3, total := 5 }
      execution := "A", createdAt := 100 }
    { pdrName := "pdr2", status := .running
      stats := { completed := 4, failed := 1, processing := 0, total := 5 }
      execution := "A", workflowStartTime := 100 }
    (by decide) (by decide)).2 (by decide)).1

/- ===== Schema translator for executions (spec section 4.1) ===== -/

structure CollectionKey where
  name : String
  version : String
deriving DecidableEq, Repr

/-- The reference store resolving natural keys to relational surrogate ids
(spec section 4.1: collection name and version, execution arn,
async-operation id). -/
structure RefStore where
  collections : List (CollectionKey × Nat)
  executions : List (String × Nat)
  asyncOperations : List (String × Nat)
deriving Repr

def lookupCollection (s : RefStore) (k : CollectionKey) : Option Nat :=
  (s.collections.find? (fun p => p.1 = k)).map (·.2)

def lookupExecution (s : RefStore) (arn : String) : Option Nat :=
  (s.executions.find? (fun p => p.1 = arn)).map (·.2)

def lookupAsyncOperation (s : RefStore) (i : String) : Option Nat :=
  (s.asyncOperations.find? (fun p => p.1 = i)).map (·.2)

/-- A required foreign key could not be resolved; surfaces to the caller as a
client-visible 400-class error naming the table and the identifiers. -/
inductive TranslateError
  | referenceNotFound (table : String) (identifiers : List String)
deriving DecidableEq, Repr

structure ApiExecution where
  arn : String
  collectionId : Option CollectionKey
  parentArn : Option String
  asyncOperationId : Option String
deriving DecidableEq, Repr

structure PgExecution where
  arn : String
  collection_cumulus_id : Option Nat
  parent_cumulus_id : Option Nat
  async_operation_cumulus_id : Option Nat
deriving DecidableEq, Repr

/-- Modelled from the spec: translateApiExecutionToPostgresExecution
(packages/db, not in the source tree). Spec section 4.1: the collection
reference is required, so an unresolvable collectionId fails with
ReferenceNotFoundError naming the collection identifiers; an explicitly
supplied asyncOperationId that does not resolve also fails hard (spec
section 9, async-operation case is not swallowed); the optional parentArn
reference degrades silently, leaving the parent field unset. -/
def translateApiExecutionToPostgresExecution (store : RefStore) (e : ApiExecution) :
    Except TranslateError PgExecution :=
  let collectionRefOrError : Except TranslateError (Option Nat) :=
    match e.collectionId with
    | none => .ok none
    | some k =>
      match lookupCollection store k with
      | some cid => .ok (some cid)
      | none => .error (.referenceNotFound "collections" [k.name, k.version])
  match collectionRefOrError with
  | .error err => .error err
  | .ok collectionRef =>
    let asyncRefOrError : Except TranslateError (Option Nat) :=
      match e.asyncOperationId with
      | none => .ok none
      | some i =>
        match lookupAsyncOperation store i with
        | some aid => .ok (some aid)
        | none => .error (.referenceNotFound "async_operations" [i])
    match asyncRefOrError with
    | .error err => .error err
    | .ok asyncRef =>
      let parentRef :=
        match e.parentArn with
        | none => none
        | some a => lookupExecution store a
      .ok { arn := e.arn
            collection_cumulus_id := collectionRef
            parent_cumulus_id := parentRef
            async_operation_cumulus_id := asyncRef }

/-- C4: creating an execution whose collectionId references a nonexistent
collection fails with a reference-not-found error naming the collection
identifiers, while creating one with a resolvable collection and a
nonexistent optional parentArn succeeds with the parent reference left
unset. -/
theorem execution_collection_required_parent_optional
    (store : RefStore) (e : ApiExecution) (k : CollectionKey)
    (hk : e.collectionId = some k) :
    (lookupCollection store k = none →
      translateApiExecutionToPostgresExecution store e =
        .error (.referenceNotFound "collections" [k.name, k.version])) ∧
    (∀ cid a aid acid,
      lookupCollection store k = some cid →
      e.parentArn = some a →
      lookupExecution store a = none →
      e.asyncOperationId = some aid →
      lookupAsyncOperation store aid = some acid →
      translateApiExecutionToPostgresExecution store e =
        .ok { arn := e.arn
              collection_cumulus_id := some cid
              parent_cumulus_id := none
              async_operation_cumulus_id := some acid }) := by
  constructor
  · intro hnone
    simp [translateApiExecutionToPostgresExecution, hk, hnone]
  · intro cid a aid acid hcid hpar hparNone haid hacid
    simp [translateApiExecutionToPostgresExecution, hk, hcid, hpar, hparNone, haid, hacid]

/-- Concrete instance for the required-collection and optional-parent rules:
against a store holding one collection and one async operation,
a request naming a missing collection errors, and a request with a missing
parent arn succeeds with the parent reference unset. -/
theorem execution_collection_required_parent_optional_witness :
    (translateApiExecutionToPostgresExecution
      { collections := [], executions := [], asyncOperations := [("op1", 7)] }
      { arn := "arn1", collectionId := some { name := "C", version := "1" }
        parentArn := some "missingParent", asyncOperationId := some "op1" } =
      .error (.referenceNotFound "collections" ["C", "1"])) ∧
    (translateApiExecutionToPostgresExecution
      { collections := [({ name := "C", version := "1" }, 5)]
        executions := [], asyncOperations := [("op1", 7)] }
      { arn := "arn1", collectionId := some { name := "C", version := "1" }
        parentArn := some "missingParent", asyncOperationId := some "op1" } =
      .ok { arn := "arn1", collection_cumulus_id := some 5
            parent_cumulus_id := none, async_operation_cumulus_id := some 7 }) :=
  ⟨(execution_collection_required_parent_optional
      { collections := [], executions := [], asyncOperations := [("op1", 7)] }
      { arn := "arn1", collectionId := some { name := "C", version := "1" }
        parentArn := some "missingParent", asyncOperationId := some "op1" }
      { name := "C", version := "1" } rfl).1 rfl,
   (execution_collection_required_parent_optional
      { collections := [({ name := "C", version := "1" }, 5)]
        executions := [], asyncOperations := [("op1", 7)] }
      { arn := "arn1", collectionId := some { name := "C", version := "1" }
        parentArn := some "missingParent", asyncOperationId := some "op1" }
      { name := "C", version := "1" } rfl).2 5 "missingParent" "op1" 7
      (by decide) rfl (by decide) rfl (by decide)⟩

/-- C5: an execution supplying an asyncOperationId that references a
nonexistent async operation fails with an error naming the async-operations
table and the identifier; the failure is not swallowed and the field is not
silently left unset. -/
theorem execution_async_operation_failure_not_swallowed
    (store : RefStore) (e : ApiExecution) (k : CollectionKey) (cid : Nat) (i : String)
    (hk : e.collectionId = some k)
    (hcid : lookupCollection store k = some cid)
    (hi : e.asyncOperationId = some i)
    (hmiss : lookupAsyncOperation store i = none) :
    translateApiExecutionToPostgresExecution store e =
      .error (.referenceNotFound "async_operations" [i]) := by
  simp [translateApiExecutionToPostgresExecution, hk, hcid, hi, hmiss]

/-- Concrete instance of the hard failure on an unresolvable async-operation
reference, with a resolvable collection reference. -/
theorem execution_async_operation_failure_witness :
    translateApiExecutionToPostgresExecution
      { collections := [({ name := "C", version := "1" }, 5)]
        executions := [], asyncOperations := [] }
      { arn := "arn1", collectionId := some { name := "C", version := "1" }
        parentArn := none, asyncOperationId := some "missingOp" } =
      .error (.referenceNotFound "async_operations" ["missingOp"]) :=
  execution_async_operation_failure_not_swallowed
    { collections := [({ name := "C", version := "1" }, 5)]
      executions := [], asyncOperations := [] }
    { arn := "arn1", collectionId := some { name := "C", version := "1" }
      parentArn := none, asyncOperationId := some "missingOp" }
    { name := "C", version := "1" } 5 "missingOp"
    rfl (by decide) rfl (by decide)

/- ===== Legacy file-shape upgrade on read (spec section 4.1) ===== -/

/-- The canonical File shape: bucket, key, fileName, checksum type and value,
size (spec section 3). -/
structure CanonicalFile where
  bucket : String
  key : String
  fileName : String
  checksumType : Option String
  checksum : Option String
  size : Int
deriving DecidableEq, Repr

/-- A granule file as persisted in the document store: either the legacy
variant (filename, filepath, name, path, fileSize, checksumValue) or the
canonical shape, as a tagged variant (spec section 9). -/
inductive StoredFile
  | legacy (bucket : String) (filename : String) (filepath : String)
      (name : String) (path : String)
      (checksumType : Option String) (checksumValue : Option String)
      (fileSize : Int)
  | canonical (f : CanonicalFile)
deriving DecidableEq, Repr

/-- Modelled from the spec: the pure read-time upgrade applied by the granule
model's get (lib/FileUtils.js buildDatabaseFiles, not in the source tree).
Spec section 4.1: legacy-format files are auto-upgraded into the canonical
shape on read, preserving checksum fields; already-canonical files are
returned unchanged. -/
def upgradeFile : StoredFile → CanonicalFile
  | .legacy bucket _filename filepath name _path checksumType checksumValue fileSize =>
    { bucket := bucket
      key := filepath
      fileName := name
      checksumType := checksumType
      checksum := checksumValue
      size := fileSize }
  | .canonical f => f

/-- The file list returned by a granule read: every stored file passed through
the upgrade. -/
def granuleGetFiles (files : List StoredFile) : List CanonicalFile :=
  files.map upgradeFile

/-- C6: reading legacy-shape files yields the canonical shape with checksum
fields preserved; reading canonical files returns them unchanged; and the
upgrade is idempotent (re-reading an upgraded file changes nothing). -/
theorem file_upgrade_canonical_and_idempotent :
    (∀ bucket filename filepath name path checksumType checksumValue fileSize,
      upgradeFile (.legacy bucket filename filepath name path
          checksumType checksumValue fileSize) =
        { bucket := bucket, key := filepath, fileName := name
          checksumType := checksumType, checksum := checksumValue
          size := fileSize }) ∧
    (∀ fs : List CanonicalFile, granuleGetFiles (fs.map .canonical) = fs) ∧
    (∀ s : StoredFile, upgradeFile (.canonical (upgradeFile s)) = upgradeFile s) := by
  refine ⟨fun _ _ _ _ _ _ _ _ => rfl, fun fs => ?_, fun s => rfl⟩
  have hcomp : upgradeFile ∘ StoredFile.canonical = id := funext fun f => rfl
  simp [granuleGetFiles, hcomp]

/- ===== File relocation engine (packages/api/lib/granules.js) ===== -/

/-- An API granule file, with the document-store field names. -/
structure ApiGranFile where
  fileName : String
  bucket : String
  key : String
deriving DecidableEq, Repr

/-- The file descriptor returned by moveGranuleFile, which still carries its
name under the legacy property name. -/
structure MovedFile where
  name : String
  bucket : String
  key : String
deriving DecidableEq, Repr

/-- renameProperty from name to fileName, as applied to each successfully
moved file before it is pushed onto updatedFiles. -/
def renameNameToFileName (f : MovedFile) : ApiGranFile :=
  { fileName := f.name, bucket := f.bucket, key := f.key }

/-- The settled outcome of one per-file move attempt (the S3 copy and the
per-file relational transaction are external collaborators, so their outcome
is an input of the model). -/
inductive MoveOutcome
  | success (updated : MovedFile)
  | failure (errMsg : String)
deriving DecidableEq, Repr

/-- One element of moveFileParams: the file to move together with how its
move attempt settles. -/
structure MoveFileParam where
  file : ApiGranFile
  outcome : MoveOutcome
deriving DecidableEq, Repr

/-- The result of the surrogate-id lookup for the granule in the relational
store: found, RecordDoesNotExist, or some other lookup error. -/
inductive PgLookup
  | found (cumulusId : Nat)
  | recordDoesNotExist
  | otherError (e : String)
deriving DecidableEq, Repr

/-- The document store's view of the granule: its persisted file list,
together with a count of aggregate file-list writes performed on it. -/
structure DocStoreState where
  files : List ApiGranFile
  writeCount : Nat
deriving DecidableEq, Repr

/-- granulesModel.update with a files payload: overwrites the granule's file
list in the document store. -/
def granulesModelUpdateFiles (st : DocStoreState) (newFiles : List ApiGranFile) :
    DocStoreState :=
  { files := newFiles, writeCount := st.writeCount + 1 }

structure MoveDatastoreResult where
  state : DocStoreState
  updatedFiles : List ApiGranFile
  moveGranuleErrors : List String
  writeToPostgres : Bool
deriving DecidableEq, Repr

/-- moveGranuleFilesAndUpdateDatastore (packages/api/lib/granules.js):
a RecordDoesNotExist from the surrogate-id lookup turns off the relational
write and the operation proceeds; any other lookup error is rethrown.
Each settled move pushes either the renamed updated file (success) or the
original file (failure) onto updatedFiles; after all attempts settle the
granule's file list is overwritten once with updatedFiles, and the rejected
outcomes become moveGranuleErrors. -/
def moveGranuleFilesAndUpdateDatastore (lookup : PgLookup)
    (moveFileParams : List MoveFileParam) (st : DocStoreState) :
    Except String MoveDatastoreResult :=
  match lookup with
  | .otherError e => .error e
  | _ =>
    let writeToPg : Bool :=
      match lookup with
      | .found _ => true
      | _ => false
    let updatedFiles := moveFileParams.map fun p =>
      match p.outcome with
      | .success u => renameNameToFileName u
      | .failure _ => p.file
    let moveGranuleErrors := moveFileParams.filterMap fun p =>
      match p.outcome with
      | .failure e => some e
      | .success _ => none
    .ok { state := granulesModelUpdateFiles st updatedFiles
          updatedFiles := updatedFiles
          moveGranuleErrors := moveGranuleErrors
          writeToPostgres := writeToPg }

/-- The outcome of moveGranule: the document-store state after the call and
the thrown aggregate error, carrying the collected per-file errors, if any. -/
structure MoveGranuleOutcome where
  state : DocStoreState
  thrown : Option (List String)
deriving DecidableEq, Repr

/-- moveGranule (packages/api/lib/granules.js): performs the file moves and
the datastore update, then throws an aggregate error enumerating the per-file
errors when any move failed; the file-list update is not rolled back. -/
def moveGranule (lookup : PgLookup) (moveFileParams : List MoveFileParam)
    (st : DocStoreState) : MoveGranuleOutcome :=
  match moveGranuleFilesAndUpdateDatastore lookup moveFileParams st with
  | .error e => { state := st, thrown := some [e] }
  | .ok r =>
    if r.moveGranuleErrors.length > 0 then
      { state := r.state, thrown := some r.moveGranuleErrors }
    else
      { state := r.state, thrown := none }

def MoveFileParam.isFailure (p : MoveFileParam) : Bool :=
  match p.outcome with
  | .failure _ => true
  | .success _ => false

/-- One error message is collected per failed move: the collected message
list is as long as the list of failed move parameters. -/
theorem length_filterMap_failureMsgs (ps : List MoveFileParam) :
    (ps.filterMap fun p =>
      match p.outcome with
      | .failure e => some e
      | .success _ => none).length = (ps.filter (·.isFailure)).length := by
  induction ps with
  | nil => rfl
  | cons q t ih =>
    cases hq : q.outcome with
    | success u => simpa [MoveFileParam.isFailure, hq] using ih
    | failure m => simpa [MoveFileParam.isFailure, hq] using ih

/-- C3: when some per-file moves fail (with the granule resolved in the
relational store), moveGranule performs exactly one aggregate file-list
write, the persisted list holds every successfully moved file at its new
location and every failed file at its original location, exactly one error
is collected per failed file, and the call throws the aggregate error even
though the file-list update is already persisted. -/
theorem move_granule_aggregate_write_and_error
    (cid : Nat) (ps : List MoveFileParam) (st : DocStoreState)
    (hfail : ∃ p ∈ ps, p.isFailure = true) :
    (moveGranule (.found cid) ps st).state.writeCount = st.writeCount + 1 ∧
    (∀ p ∈ ps, ∀ u, p.outcome = .success u →
      renameNameToFileName u ∈ (moveGranule (.found cid) ps st).state.files) ∧
    (∀ p ∈ ps, ∀ m, p.outcome = .failure m →
      p.file ∈ (moveGranule (.found cid) ps st).state.files) ∧
    (moveGranule (.found cid) ps st).thrown =
      some (ps.filterMap fun p =>
        match p.outcome with
        | .failure e => some e
        | .success _ => none) ∧
    (ps.filterMap fun p =>
        match p.outcome with
        | .failure e => some e
        | .success _ => none).length = (ps.filter (·.isFailure)).length := by
  obtain ⟨p₀, hp₀, hp₀fail⟩ := hfail
  have herrs := length_filterMap_failureMsgs ps
  have hlen :
      0 < (ps.filterMap fun p =>
        match p.outcome with
        | .failure e => some e
        | .success _ => none).length := by
    rw [herrs]
    have : p₀ ∈ ps.filter (·.isFailure) := List.mem_filter.mpr ⟨hp₀, hp₀fail⟩
    exact List.length_pos.mpr (List.ne_nil_of_mem this)
  refine ⟨?_, ?_, ?_, ?_, herrs⟩
  · simp [moveGranule, moveGranuleFilesAndUpdateDatastore, granulesModelUpdateFiles, hlen]
  · intro p hp u hu
    simp only [moveGranule, moveGranuleFilesAndUpdateDatastore, granulesModelUpdateFiles, hlen,
      gt_iff_lt, if_pos]
    exact List.mem_map.mpr ⟨p, hp, by simp [hu]⟩
  · intro p hp m hm
    simp only [moveGranule, moveGranuleFilesAndUpdateDatastore, granulesModelUpdateFiles, hlen,
      gt_iff_lt, if_pos]
    exact List.mem_map.mpr ⟨p, hp, by simp [hm]⟩
  · simp [moveGranule, moveGranuleFilesAndUpdateDatastore, granulesModelUpdateFiles, hlen]

/-- Concrete instance of the aggregate-write and aggregate-error behavior:
one file moves and one fails; the thrown error carries exactly the one
per-file error while the (single) file-list write has been persisted. -/
theorem move_granule_aggregate_write_and_error_witness :
    (moveGranule (.found 1)
      [ { file := { fileName := "a.hdf", bucket := "src", key := "p/a.hdf" }
          outcome := .success { name := "a.hdf", bucket := "dst", key := "q/a.hdf" } }
      , { file := { fileName := "b.hdf", bucket := "src", key := "p/b.hdf" }
          outcome := .failure "copy failed" } ]
      { files := [], writeCount := 0 }).state.writeCount = 1 ∧
    (moveGranule (.found 1)
      [ { file := { fileName := "a.hdf", bucket := "src", key := "p/a.hdf" }
          outcome := .success { name := "a.hdf", bucket := "dst", key := "q/a.hdf" } }
      , { file := { fileName := "b.hdf", bucket := "src", key := "p/b.hdf" }
          outcome := .failure "copy failed" } ]
      { files := [], writeCount := 0 }).thrown = some ["copy failed"] := by
  have h := move_granule_aggregate_write_and_error 1
    [ { file := { fileName := "a.hdf", bucket := "src", key := "p/a.hdf" }
        outcome := .success { name := "a.hdf", bucket := "dst", key := "q/a.hdf" } }
    , { file := { fileName := "b.hdf", bucket := "src", key := "p/b.hdf" }
        outcome := .failure "copy failed" } ]
    { files := [], writeCount := 0 }
    ⟨{ file := { fileName := "b.hdf", bucket := "src", key := "p/b.hdf" }
       outcome := .failure "copy failed" }, by decide, by decide⟩
  exact ⟨h.1, h.2.2.2.1⟩

/-- C7: when the relational surrogate-id lookup raises RecordDoesNotExist,
moveGranuleFilesAndUpdateDatastore proceeds as a document-store-only write
(writeToPostgres false); any other lookup error is rethrown. -/
theorem move_granule_degrades_on_missing_relational_record
    (ps : List MoveFileParam) (st : DocStoreState) (e : String) :
    (∀ r, moveGranuleFilesAndUpdateDatastore .recordDoesNotExist ps st = .ok r →
      r.writeToPostgres = false) ∧
    (moveGranuleFilesAndUpdateDatastore .recordDoesNotExist ps st).isOk = true ∧
    moveGranuleFilesAndUpdateDatastore (.otherError e) ps st = .error e := by
  refine ⟨?_, ?_, rfl⟩
  · intro r hr
    simp only [moveGranuleFilesAndUpdateDatastore, Except.ok.injEq] at hr
    rw [← hr]
  · simp [moveGranuleFilesAndUpdateDatastore, Except.isOk, Except.toBool]

/-- Concrete instance of migration-compatibility degradation: a lookup that
finds no relational granule record still yields a successful result with the
relational write turned off, and a connection-style error is rethrown. -/
theorem move_granule_degrades_witness :
    moveGranuleFilesAndUpdateDatastore PgLookup.recordDoesNotExist []
      { files := [], writeCount := 0 } =
      .ok { state := { files := [], writeCount := 1 }
            updatedFiles := []
            moveGranuleErrors := []
            writeToPostgres := false } ∧
    moveGranuleFilesAndUpdateDatastore (.otherError "connection reset") []
      { files := [], writeCount := 0 } = .error "connection reset" :=
  ⟨by rfl,
   (move_granule_degrades_on_missing_relational_record []
     { files := [], writeCount := 0 } "connection reset").2.2⟩

/- ===== Granule product volume (packages/api/lib/granules.js) ===== -/

/-- A granule file as passed to getGranuleProductVolume: its size is an
integer when present, and absent (or not an integer) otherwise. -/
structure VolumeFile where
  size : Option Int
deriving DecidableEq, Repr

/-- getGranuleProductVolume (packages/api/lib/granules.js): map the files to
their sizes, keep the integer ones, and reduce with addition from zero. -/
def getGranuleProductVolume (granuleFiles : List VolumeFile) : Int :=
  ((granuleFiles.map (·.size)).filterMap id).foldl (· + ·) 0

/-- The JavaScript call with the granuleFiles argument possibly absent: the
defaulted parameter makes an absent list behave as the empty list. -/
def getGranuleProductVolumeOfInput (input : Option (List VolumeFile)) : Int :=
  getGranuleProductVolume (input.getD [])

/-- C9: the product volume equals the sum of the sizes of the granule's
files (those carrying an integer size), and is zero for an empty or absent
file list. -/
theorem granule_product_volume_is_sum_of_sizes :
    (∀ granuleFiles : List VolumeFile,
      getGranuleProductVolume granuleFiles =
        (granuleFiles.filterMap (·.size)).sum) ∧
    getGranuleProductVolume [] = 0 ∧
    getGranuleProductVolumeOfInput none = 0 := by
  refine ⟨fun granuleFiles => ?_, rfl, rfl⟩
  rw [getGranuleProductVolume, List.filterMap_map, List.sum_eq_foldl]
  rfl

/- ===== Providers endpoint (get and post handlers) ===== -/

/-- A provider record as stored in the document store. -/
structure ProviderRecord where
  id : String
  host : String
  password : Option String
  globalConnectionLimit : Option Nat
deriving DecidableEq, Repr

/-- The request body of a provider create: the id may be missing, in which
case the handler raises a validation error. -/
structure ProviderData where
  id : Option String
  host : String
  password : Option String
  globalConnectionLimit : Option Nat
deriving DecidableEq, Repr

def ProviderData.toRecord (d : ProviderData) (id : String) : ProviderRecord :=
  { id := id
    host := d.host
    password := d.password
    globalConnectionLimit := d.globalConnectionLimit }

/-- The state of the two stores holding providers: the document store records
and the relational rows, whose natural key (the name column) is unique. -/
structure ProvidersState where
  dynamo : List ProviderRecord
  postgres : List String
deriving DecidableEq, Repr

/-- providerModel.get keyed by id on the document store. -/
def dynamoGetProvider (st : ProvidersState) (id : String) : Option ProviderRecord :=
  st.dynamo.find? (fun r => r.id = id)

inductive ProviderGetResponse
  | notFound
  | ok (record : ProviderRecord)
deriving DecidableEq, Repr

/-- The provider get handler: fetch the record by id, delete its password
attribute, and send the result; a missing record is a not-found response. -/
def providersGet (st : ProvidersState) (id : String) : ProviderGetResponse :=
  match dynamoGetProvider st id with
  | none => .notFound
  | some r => .ok { r with password := none }

inductive ProviderPostResponse
  | saved
  | conflict (id : String)
  | badRequest (msg : String)
deriving DecidableEq, Repr

structure ProviderPostResult where
  state : ProvidersState
  response : ProviderPostResponse
deriving DecidableEq, Repr

/-- The provider post handler: a missing id is a validation error; an
existing document-store record raises a collision; a relational insert onto
an existing name raises unique-violation code 23505, which isCollisionError
also maps to the conflict response. Only when neither store has the id are
both stores written. -/
def providersPost (st : ProvidersState) (data : ProviderData) : ProviderPostResult :=
  match data.id with
  | none => { state := st, response := .badRequest "Provider records require an id" }
  | some id =>
    if (dynamoGetProvider st id).isSome then
      { state := st, response := .conflict id }
    else if st.postgres.contains id then
      { state := st, response := .conflict id }
    else
      { state := { dynamo := data.toRecord id :: st.dynamo, postgres := id :: st.postgres }
        response := .saved }

/-- C8: creating a provider whose natural key already exists in either
datastore yields the conflict (409) response naming the id, and both stores
are left exactly as they were: the collision is not retried and the existing
record is not overwritten. -/
theorem provider_create_collision_conflict
    (st : ProvidersState) (data : ProviderData) (id : String)
    (hid : data.id = some id)
    (hexists : (dynamoGetProvider st id).isSome = true ∨ st.postgres.contains id = true) :
    (providersPost st data).response = .conflict id ∧
    (providersPost st data).state = st := by
  rcases hexists with hdyn | hpg
  · constructor <;> simp [providersPost, hid, hdyn]
  · rcases hdy : (dynamoGetProvider st id).isSome with _ | _
    · have hmem : id ∈ st.postgres := by simpa using hpg
      constructor <;> simp [providersPost, hid, hdy, hmem]
    · constructor <;> simp [providersPost, hid, hdy]

/-- Concrete instance of the create collision: posting an id already present
in both stores answers conflict and leaves the stores untouched. -/
theorem provider_create_collision_witness :
    (providersPost
      { dynamo := [{ id := "p1", host := "h", password := none, globalConnectionLimit := none }]
        postgres := ["p1"] }
      { id := some "p1", host := "h2", password := none, globalConnectionLimit := none }).response
      = .conflict "p1" ∧
    (providersPost
      { dynamo := [{ id := "p1", host := "h", password := none, globalConnectionLimit := none }]
        postgres := ["p1"] }
      { id := some "p1", host := "h2", password := none, globalConnectionLimit := none }).state
      = { dynamo := [{ id := "p1", host := "h", password := none, globalConnectionLimit := none }]
          postgres := ["p1"] } :=
  provider_create_collision_conflict
    { dynamo := [{ id := "p1", host := "h", password := none, globalConnectionLimit := none }]
      postgres := ["p1"] }
    { id := some "p1", host := "h2", password := none, globalConnectionLimit := none }
    "p1" rfl (Or.inl (by decide))

/-- C10: whatever record the provider get handler returns has no password
attribute, regardless of the stored password's value. -/
theorem provider_get_never_returns_password
    (st : ProvidersState) (id : String) (r : ProviderRecord)
    (h : providersGet st id = .ok r) :
    r.password = none := by
  unfold providersGet at h
  cases hfind : dynamoGetProvider st id with
  | none => rw [hfind] at h; exact absurd h (by simp)
  | some rec0 =>
    rw [hfind] at h
    have : ({ rec0 with password := none } : ProviderRecord) = r := by
      simpa using h
    rw [← this]

/-- Concrete instance of password scrubbing: a stored provider with a secret
password is returned without any password field. -/
theorem provider_get_never_returns_password_witness :
    ({ id := "p1", host := "h", password := none, globalConnectionLimit := some 5 }
        : ProviderRecord).password = none :=
  provider_get_never_returns_password
    { dynamo := [{ id := "p1", host := "h", password := some "secret"
                   globalConnectionLimit := some 5 }]
      postgres := ["p1"] }
    "p1"
    { id := "p1", host := "h", password := none, globalConnectionLimit := some 5 }
    (by decide)

end Cumulus
